import Mathlib

/-!
Verification development for the flucastr auth service skeleton.

The development shallowly embeds the parts of the TypeScript source that the
properties below speak about:

* the registration-module `UserEntity` and its key-rotation helpers
  (entities/user.entity.ts),
* `RegistrationRepository` (`findById`, `findByEmail`,
  `findByVerificationToken`, `update`, `updateVerificationStatus`, `create`,
  `toUserEntity`) over a durable store of Prisma user rows,
* `AuthService` (`login`, `validateUser`, `generateTokens`, `logout`,
  `refreshToken` support functions, `revokeRefreshToken`,
  `revokeAllRefreshTokens`, `adminRevokeUserTokens`, `introspectToken`,
  `verifyAccessToken`, `verifyRefreshToken`, `requestRenewSignatures`,
  `confirmRenewSignatures`),
* `RegistrationService.register` / `RegistrationService.verifyEmail`,
* the auth-module `User` entity with its `AuthStatus` state machine,
  lockout counters and email verification (entities/user.entity.ts and
  entities/types.ts of the auth module).

External collaborators (bcrypt, the `@nestjs/jwt` codec, Prisma row storage)
are modelled explicitly; randomness (fresh signing keys, generated codes,
database ids) and the wall clock are threaded as parameters.
-/

namespace Flucastr

/-- Abstract clock ticks.  The JWT paths of the source compare seconds while
the entity lockout code compares milliseconds; every statement below uses one
clock consistently, so a single `Nat` instant type serves both. -/
abbrev Time := Nat

/-- Model of the external bcrypt hasher (`bcrypt.hash(plain, 12)`): a
deterministic tagging that is injective on plaintexts, which is all the
control flow of the source observes. -/
def bcryptHash (plain : String) : String := "bcrypt2b12" ++ plain

/-- Model of `bcrypt.compare(plain, hash)`: true exactly when `hash` is the
hash of `plain`. -/
def bcryptCompare (plain hash : String) : Bool := hash == bcryptHash plain

/-- A decoded JWT as handled by the external codec (`@nestjs/jwt`).  `key`
records the secret the token was signed with.  Issuer and audience are fixed
by global configuration and identical between signing and verification in the
source, so they are absorbed into the key match. -/
structure Jwt where
  sub : Option String
  exp : Option Time
  iat : Option Time
  key : String
  isRefresh : Bool
deriving Repr, DecidableEq

/-- Source `jwtService.verifyAsync(token, secret, ...)`: the signature must have been
produced with `secret` and the token must be unexpired at verification time
(a token without an `exp` claim does not expire). -/
def jwtVerify (t : Jwt) (secret : String) (now : Time) : Bool :=
  t.key == secret && (match t.exp with | some e => decide (now < e) | none => true)

/-- A durable user row as stored by Prisma: exactly the columns of the
`users` table that the embedded code reads or writes, including the renewal
columns added by the `sinature_renewal_verification` migration. -/
structure StoredUser where
  id : String
  email : String
  password : String
  secretKey : String
  refreshSecretKey : String
  firstName : Option String
  lastName : Option String
  isActive : Bool
  emailVerified : Bool
  verificationToken : Option String
  verificationTokenExpiresAt : Option Time
  renewalVerificationToken : Option String
  renewalVerificationTokenExpiresAt : Option Time
  createdAt : Time
  updatedAt : Time
deriving Repr, DecidableEq

/-- The durable store: the list of user rows. -/
abbrev Store := List StoredUser

deriving instance DecidableEq for Except

/-- The registration-module `UserEntity` (entities/user.entity.ts): the
in-memory shape `AuthService` and `RegistrationService` operate on. -/
structure UserEntity where
  id : String
  email : String
  password : Option String
  secretKey : String
  refreshSecretKey : String
  firstName : Option String
  lastName : Option String
  isActive : Bool
  emailVerified : Bool
  verificationToken : Option String
  verificationTokenExpiresAt : Option Time
  renewalVerificationToken : Option String
  renewalVerificationTokenExpiresAt : Option Time
  createdAt : Time
  updatedAt : Time
deriving Repr, DecidableEq

/-- Source `UserEntity.regenerateSecretKey()`: installs a fresh access signing key on
the in-memory entity; the fresh random key and the clock are parameters. -/
def UserEntity.regenerateSecretKey (u : UserEntity) (fresh : String) (now : Time) :
    UserEntity :=
  { u with secretKey := fresh, updatedAt := now }

/-- Source `UserEntity.regenerateRefreshSecretKey()`: installs a fresh refresh
signing key on the in-memory entity. -/
def UserEntity.regenerateRefreshSecretKey (u : UserEntity) (fresh : String) (now : Time) :
    UserEntity :=
  { u with refreshSecretKey := fresh, updatedAt := now }

/-- JavaScript `value || undefined` on an optional string column: empty
strings and nulls both collapse to `undefined`. -/
def jsStrOpt : Option String → Option String
  | some s => if s = "" then none else some s
  | none => none

/-- Source `RegistrationRepository.toUserEntity`: maps a Prisma row to a
`UserEntity`.  It copies only the listed columns; in particular the renewal
columns are never read, so the entity's renewal fields are always absent. -/
def toUserEntity (u : StoredUser) : UserEntity :=
  { id := u.id
    email := u.email
    password := some u.password
    secretKey := u.secretKey
    refreshSecretKey := u.refreshSecretKey
    firstName := jsStrOpt u.firstName
    lastName := jsStrOpt u.lastName
    isActive := u.isActive
    emailVerified := u.emailVerified
    verificationToken := jsStrOpt u.verificationToken
    verificationTokenExpiresAt := u.verificationTokenExpiresAt
    renewalVerificationToken := none
    renewalVerificationTokenExpiresAt := none
    createdAt := u.createdAt
    updatedAt := u.updatedAt }

/-- The `Partial<UserEntity>` argument of `RegistrationRepository.update`:
`none` means the field is `undefined` (not updated). -/
structure UserUpdates where
  email : Option String := none
  password : Option String := none
  firstName : Option String := none
  lastName : Option String := none
  isActive : Option Bool := none
  emailVerified : Option Bool := none
  verificationToken : Option String := none
  verificationTokenExpiresAt : Option Time := none
  secretKey : Option String := none
  refreshSecretKey : Option String := none
  renewalVerificationToken : Option String := none
  renewalVerificationTokenExpiresAt : Option Time := none
deriving Repr, DecidableEq

/-- Passing a whole `UserEntity` as the `Partial<UserEntity>` argument, as in
`this.registrationRepository.update(user.id, user)`: required fields are
present, optional fields are present exactly when set on the entity. -/
def entityToUpdates (u : UserEntity) : UserUpdates :=
  { email := some u.email
    password := u.password
    firstName := u.firstName
    lastName := u.lastName
    isActive := some u.isActive
    emailVerified := some u.emailVerified
    verificationToken := u.verificationToken
    verificationTokenExpiresAt := u.verificationTokenExpiresAt
    secretKey := some u.secretKey
    refreshSecretKey := some u.refreshSecretKey
    renewalVerificationToken := u.renewalVerificationToken
    renewalVerificationTokenExpiresAt := u.renewalVerificationTokenExpiresAt }

/-- The row produced by `RegistrationRepository.update` for one user: it
bumps `updatedAt` and copies exactly the eight fields the source guards with
`!== undefined` checks — `secretKey`, `refreshSecretKey` and the renewal
columns are left untouched no matter what the updates carry. -/
def applyUpdates (now : Time) (upd : UserUpdates) (u : StoredUser) : StoredUser :=
  { u with
    updatedAt := now
    email := upd.email.getD u.email
    password := upd.password.getD u.password
    firstName := match upd.firstName with | some v => some v | none => u.firstName
    lastName := match upd.lastName with | some v => some v | none => u.lastName
    isActive := upd.isActive.getD u.isActive
    emailVerified := upd.emailVerified.getD u.emailVerified
    verificationToken :=
      match upd.verificationToken with | some v => some v | none => u.verificationToken
    verificationTokenExpiresAt :=
      match upd.verificationTokenExpiresAt with
      | some v => some v
      | none => u.verificationTokenExpiresAt }

/-- Apply a row-level function to every row with the given id (Prisma
`update where id`). -/
def updateStore (s : Store) (id : String) (f : StoredUser → StoredUser) : Store :=
  s.map (fun u => if u.id == id then f u else u)

/-- Source `RegistrationRepository.update(id, updates)` at the store level. -/
def repoUpdate (s : Store) (id : String) (upd : UserUpdates) (now : Time) : Store :=
  updateStore s id (applyUpdates now upd)

/-- Source `RegistrationRepository.findById`. -/
def findById (s : Store) (id : String) : Option StoredUser :=
  s.find? (fun u => u.id == id)

/-- Source `RegistrationRepository.findByEmail`. -/
def findByEmail (s : Store) (email : String) : Option StoredUser :=
  s.find? (fun u => u.email == email)

/-- Source `RegistrationRepository.findByVerificationToken`. -/
def findByVerificationToken (s : Store) (tok : String) : Option StoredUser :=
  s.find? (fun u => u.verificationToken == some tok)

/-- Source `RegistrationRepository.updateVerificationStatus(id, emailVerified,
verificationToken?, verificationTokenExpiresAt?)`.  The token argument is
three-valued in the source (`undefined` = skip, `null` = clear, string =
set), modelled as `Option (Option String)`; the expiry argument is skipped
when `undefined`. -/
def updateVerificationStatus (s : Store) (id : String) (emailVerified : Bool)
    (vtok : Option (Option String)) (vexp : Option Time) (now : Time) : Store :=
  updateStore s id (fun u =>
    { u with
      emailVerified := emailVerified
      updatedAt := now
      verificationToken := match vtok with | some v => v | none => u.verificationToken
      verificationTokenExpiresAt :=
        match vexp with | some v => some v | none => u.verificationTokenExpiresAt })

/-- Source `RegistrationRepository.create`: inserts a row from the entity; the
renewal columns are not part of the insert and default to null.  The
database-generated id is a parameter. -/
def repoCreate (s : Store) (id : String) (u : UserEntity) : Store :=
  s ++ [{ id := id
          email := u.email
          password := u.password.getD ""
          secretKey := u.secretKey
          refreshSecretKey := u.refreshSecretKey
          firstName := u.firstName
          lastName := u.lastName
          isActive := u.isActive
          emailVerified := u.emailVerified
          verificationToken := u.verificationToken
          verificationTokenExpiresAt := u.verificationTokenExpiresAt
          renewalVerificationToken := none
          renewalVerificationTokenExpiresAt := none
          createdAt := u.createdAt
          updatedAt := u.updatedAt }]

/-- The typed failures the embedded services raise (NestJS exception classes
with their messages). -/
inductive AuthError where
  | unauthorized (msg : String)
  | notFound (msg : String)
  | badRequest (msg : String)
  | conflict (msg : String)
deriving Repr, DecidableEq

/-- Source `AuthService.validateUser(email, password)`: absent user, absent password
hash (the `bcrypt.compare` throw is caught and becomes `null`) and a
mismatching password all collapse to `none`. -/
def validateUser (s : Store) (email password : String) : Option UserEntity :=
  match findByEmail s email with
  | none => none
  | some su =>
    let u := toUserEntity su
    match u.password with
    | none => none
    | some h => if bcryptCompare password h then some u else none

/-- Source `AuthService.generateTokens(user)`: an access token signed with the
user's current `secretKey` (1 hour expiry) and a refresh token signed with
the current `refreshSecretKey` (7 days expiry). -/
def generateTokens (u : UserEntity) (now : Time) : Jwt × Jwt :=
  ({ sub := some u.id, exp := some (now + 3600), iat := some now,
     key := u.secretKey, isRefresh := false },
   { sub := some u.id, exp := some (now + 604800), iat := some now,
     key := u.refreshSecretKey, isRefresh := true })

/-- Source `AuthService.login(email, password)`: validate the credentials, gate on
`isActive`, then issue a token pair.  The source performs no repository
write on this path. -/
def login (s : Store) (email password : String) (now : Time) :
    Except AuthError (Jwt × Jwt) :=
  match validateUser s email password with
  | none => .error (.unauthorized "Invalid credentials")
  | some u =>
    if !u.isActive then .error (.unauthorized "Account is deactivated")
    else .ok (generateTokens u now)

/-- Source `login` together with the store it leaves behind: the source's `login`
path contains no repository write, so the store is returned unchanged. -/
def loginSt (s : Store) (email password : String) (now : Time) :
    Except AuthError (Jwt × Jwt) × Store :=
  (login s email password now, s)

/-- Source `AuthService.verifyRefreshToken(token, userId)`: looks the user up by id
and verifies the token against the user's current `refreshSecretKey`; every
failure (including the user lookup) is caught and re-raised as
`UnauthorizedException('Invalid refresh token')`. -/
def verifyRefreshToken (s : Store) (tok : Jwt) (userId : Option String) (now : Time) :
    Except AuthError Jwt :=
  match userId.bind (findById s) with
  | none => .error (.unauthorized "Invalid refresh token")
  | some su =>
    if jwtVerify tok su.refreshSecretKey now then .ok tok
    else .error (.unauthorized "Invalid refresh token")

/-- Source `AuthService.verifyAccessToken(token, userId)`: as above but against the
user's current `secretKey`, re-raised as
`UnauthorizedException('Invalid token')`. -/
def verifyAccessToken (s : Store) (tok : Jwt) (userId : Option String) (now : Time) :
    Except AuthError Jwt :=
  match userId.bind (findById s) with
  | none => .error (.unauthorized "Invalid token")
  | some su =>
    if jwtVerify tok su.secretKey now then .ok tok
    else .error (.unauthorized "Invalid token")

/-- The JavaScript truthiness test `!decoded.sub` on the decoded payload. -/
def subPresent : Option String → Bool
  | some s => s ≠ ""
  | none => false

/-- Body of `AuthService.logout(refreshToken)` before its surrounding
`catch`: decode, verify ownership, reload the user, regenerate both keys on
the in-memory entity, persist through `update`.  The presented token is
`none` when it does not decode; the fresh random keys are parameters. -/
def logoutInner (s : Store) (tok : Option Jwt) (freshAccess freshRefresh : String)
    (now : Time) : Except AuthError Store :=
  match tok with
  | none => .error (.unauthorized "Invalid refresh token format")
  | some t =>
    if !subPresent t.sub then .error (.unauthorized "Invalid refresh token format")
    else
      match verifyRefreshToken s t t.sub now with
      | .error e => .error e
      | .ok _ =>
        match t.sub.bind (findById s) with
        | none => .error (.notFound "User not found")
        | some su =>
          let u := ((toUserEntity su).regenerateSecretKey freshAccess now).regenerateRefreshSecretKey
            freshRefresh now
          .ok (repoUpdate s u.id (entityToUpdates u) now)

/-- Source `AuthService.logout`: the whole body sits in a `try` whose `catch`
re-raises every failure as `UnauthorizedException('Invalid refresh token')`. -/
def logout (s : Store) (tok : Option Jwt) (freshAccess freshRefresh : String)
    (now : Time) : Except AuthError Store :=
  match logoutInner s tok freshAccess freshRefresh now with
  | .ok s2 => .ok s2
  | .error _ => .error (.unauthorized "Invalid refresh token")

/-- Body of `AuthService.revokeRefreshToken(refreshToken)` before its
`catch`: as logout, but only `regenerateRefreshSecretKey` is called. -/
def revokeInner (s : Store) (tok : Option Jwt) (freshRefresh : String) (now : Time) :
    Except AuthError Store :=
  match tok with
  | none => .error (.unauthorized "Invalid refresh token format")
  | some t =>
    if !subPresent t.sub then .error (.unauthorized "Invalid refresh token format")
    else
      match verifyRefreshToken s t t.sub now with
      | .error e => .error e
      | .ok _ =>
        match t.sub.bind (findById s) with
        | none => .error (.notFound "User not found")
        | some su =>
          let u := (toUserEntity su).regenerateRefreshSecretKey freshRefresh now
          .ok (repoUpdate s u.id (entityToUpdates u) now)

/-- Source `AuthService.revokeRefreshToken`: failures re-raised as
`UnauthorizedException('Invalid refresh token')`. -/
def revokeRefreshToken (s : Store) (tok : Option Jwt) (freshRefresh : String)
    (now : Time) : Except AuthError Store :=
  match revokeInner s tok freshRefresh now with
  | .ok s2 => .ok s2
  | .error _ => .error (.unauthorized "Invalid refresh token")

/-- Source `AuthService.revokeAllRefreshTokens(userId)`: loads the user by id,
calls only `regenerateRefreshSecretKey` on the entity, persists through
`update`; its `catch` re-raises the original error unchanged. -/
def revokeAllRefreshTokens (s : Store) (userId : String) (freshRefresh : String)
    (now : Time) : Except AuthError Store :=
  match findById s userId with
  | none => .error (.notFound "User not found")
  | some su =>
    let u := (toUserEntity su).regenerateRefreshSecretKey freshRefresh now
    .ok (repoUpdate s u.id (entityToUpdates u) now)

/-- Source `AuthService.adminRevokeUserTokens(dto)`: delegates to
`revokeAllRefreshTokens(dto.userId)`. -/
def adminRevokeUserTokens (s : Store) (userId : String) (freshRefresh : String)
    (now : Time) : Except AuthError Store :=
  revokeAllRefreshTokens s userId freshRefresh now

/-- The structured response of `AuthService.introspectToken`. -/
structure IntrospectResult where
  active : Bool
  sub : Option String := none
  exp : Option Time := none
  iat : Option Time := none
  email : Option String := none
  error : Option String := none
deriving Repr, DecidableEq

/-- The source's expiry pre-check `decoded.exp && decoded.exp < now`
(JavaScript truthiness: a zero `exp` claim skips the check). -/
def jsExpCheck (t : Jwt) (now : Time) : Bool :=
  match t.exp with
  | some e => e != 0 && decide (e < now)
  | none => false

/-- Source `AuthService.introspectToken(token)`: every failure becomes a structured
inactive result.  The presented token is `none` when `jwtService.decode`
returns nothing. -/
def introspectToken (s : Store) (tok : Option Jwt) (now : Time) : IntrospectResult :=
  match tok with
  | none => { active := false, error := some "Invalid token format" }
  | some t =>
    if jsExpCheck t now then
      { active := false, sub := t.sub, exp := t.exp, iat := t.iat,
        error := some "Token has expired" }
    else
      match verifyAccessToken s t t.sub now with
      | .error _ =>
        { active := false, sub := t.sub, exp := t.exp, iat := t.iat,
          error := some "Token signature invalid" }
      | .ok _ =>
        match t.sub.bind (findById s) with
        | none => { active := false, sub := t.sub, error := some "User not found" }
        | some su =>
          { active := true, sub := t.sub, exp := t.exp, iat := t.iat,
            email := some su.email }

/-- Source `AuthService.requestRenewSignatures(email)`: silent success when the user
is absent or inactive; otherwise stores a renewal code with a one-hour expiry
on the entity and persists through `update`.  The generated code is a
parameter. -/
def requestRenewSignatures (s : Store) (email code : String) (now : Time) : Store :=
  match findByEmail s email with
  | none => s
  | some su =>
    if !su.isActive then s
    else
      let u := { toUserEntity su with
                 renewalVerificationToken := some code
                 renewalVerificationTokenExpiresAt := some (now + 3600) }
      repoUpdate s u.id (entityToUpdates u) now

/-- Source `AuthService.confirmRenewSignatures(email, code, newPassword)`: validates
the pending renewal code on the loaded entity, then hashes the new password,
regenerates both keys, clears the renewal fields and persists through
`update`.  Fresh keys are parameters. -/
def confirmRenewSignatures (s : Store) (email code newPassword : String)
    (freshAccess freshRefresh : String) (now : Time) : Except AuthError Store :=
  match findByEmail s email with
  | none => .error (.notFound "User not found")
  | some su =>
    let u := toUserEntity su
    if !u.isActive then .error (.unauthorized "Account is deactivated")
    else
      match u.renewalVerificationToken, u.renewalVerificationTokenExpiresAt with
      | some tk, some e =>
        if tk = "" then .error (.unauthorized "No renewal verification code requested")
        else if tk ≠ code then .error (.unauthorized "Invalid verification code")
        else if e < now then .error (.unauthorized "Verification code has expired")
        else
          let u2 := (u.regenerateSecretKey freshAccess now).regenerateRefreshSecretKey
            freshRefresh now
          let u3 := { u2 with
                      password := some (bcryptHash newPassword)
                      renewalVerificationToken := none
                      renewalVerificationTokenExpiresAt := none
                      updatedAt := now }
          .ok (repoUpdate s u3.id (entityToUpdates u3) now)
      | _, _ => .error (.unauthorized "No renewal verification code requested")

/-- Source `RegistrationService.register(dto)`: rejects duplicate emails, hashes the
password, generates the verification token (24-hour expiry) and per-user
secret keys, creates the user with `isActive := true` and
`emailVerified := false`.  Generated id, keys and token are parameters. -/
def registerUser (s : Store) (id email password : String)
    (firstName lastName : Option String) (secretKey refreshSecretKey vtok : String)
    (now : Time) : Except AuthError Store :=
  match findByEmail s email with
  | some _ => .error (.conflict "Email address already registered")
  | none =>
    .ok (repoCreate s id
      { id := ""
        email := email
        password := some (bcryptHash password)
        secretKey := secretKey
        refreshSecretKey := refreshSecretKey
        firstName := firstName
        lastName := lastName
        isActive := true
        emailVerified := false
        verificationToken := some vtok
        verificationTokenExpiresAt := some (now + 86400)
        renewalVerificationToken := none
        renewalVerificationTokenExpiresAt := none
        createdAt := now
        updatedAt := now })

/-- Source `RegistrationService.verifyEmail(dto)`: find the holder of the token,
reject expired tokens and already-verified accounts, then persist
`emailVerified := true` and clear the token via
`updateVerificationStatus(id, true, null)` — note the expiry argument is not
passed, so the stored expiry column is left as it was. -/
def verifyEmailFlow (s : Store) (tok : String) (now : Time) : Except AuthError Store :=
  match findByVerificationToken s tok with
  | none => .error (.notFound "Invalid verification token")
  | some su =>
    let u := toUserEntity su
    match u.verificationTokenExpiresAt with
    | some e =>
      if e < now then .error (.badRequest "Verification token has expired")
      else if u.emailVerified then .error (.badRequest "Email already verified")
      else .ok (updateVerificationStatus s u.id true (some none) none now)
    | none =>
      if u.emailVerified then .error (.badRequest "Email already verified")
      else .ok (updateVerificationStatus s u.id true (some none) none now)

/-- Source `AuthStatus` of the auth module (entities/types.ts). -/
inductive AuthStatus where
  | pending
  | active
  | inactive
  | suspended
  | blocked
deriving Repr, DecidableEq

/-- The string value of each `AuthStatus` enum member. -/
def authStatusStr : AuthStatus → String
  | .pending => "pending"
  | .active => "active"
  | .inactive => "inactive"
  | .suspended => "suspended"
  | .blocked => "blocked"

/-- Source `AUTH_STATUS_TRANSITIONS` (entities/types.ts): the allowed-target table;
`blocked` is terminal. -/
def AUTH_STATUS_TRANSITIONS : AuthStatus → List AuthStatus
  | .pending => [.active, .blocked]
  | .active => [.inactive, .suspended, .blocked]
  | .inactive => [.active, .blocked]
  | .suspended => [.active, .blocked]
  | .blocked => []

/-- Source `AccountLockReason` (entities/types.ts). -/
inductive AccountLockReason where
  | multipleFailedAttempts
  | suspiciousActivity
  | securityViolation
  | administrativeAction
  | policyViolation
deriving Repr, DecidableEq

/-- The auth-module `User` entity (entities/user.entity.ts of the auth
module): carries the authentication status, the lockout fields and the email
verification fields on top of the basic user data. -/
structure AuthUser where
  id : String
  email : String
  password : Option String
  secretKey : String
  refreshSecretKey : String
  isActive : Bool
  emailVerified : Bool
  authStatus : AuthStatus
  failedLoginAttempts : Nat
  lockedUntil : Option Time
  lockReason : Option AccountLockReason
  verificationToken : Option String
  verificationTokenExpiresAt : Option Time
deriving Repr, DecidableEq

/-- Source `User.canTransitionTo(newStatus)`. -/
def canTransitionTo (u : AuthUser) (target : AuthStatus) : Bool :=
  (AUTH_STATUS_TRANSITIONS u.authStatus).contains target

/-- Source `User.isLocked()`: `lockedUntil` set and in the future. -/
def AuthUser.isLocked (u : AuthUser) (now : Time) : Bool :=
  match u.lockedUntil with
  | none => false
  | some t => decide (now < t)

/-- Source `User.resetFailedAttempts()`. -/
def AuthUser.resetFailedAttempts (u : AuthUser) : AuthUser :=
  { u with failedLoginAttempts := 0 }

/-- Source `User.unlock()`. -/
def AuthUser.unlock (u : AuthUser) : AuthUser :=
  { u with lockedUntil := none, lockReason := none }

/-- Source `User.lockAccount(reason, durationMinutes)`: `lockedUntil` is
`Date.now() + durationMinutes * 60 * 1000`. -/
def AuthUser.lockAccount (u : AuthUser) (reason : AccountLockReason)
    (durationMinutes : Nat) (now : Time) : AuthUser :=
  { u with lockedUntil := some (now + durationMinutes * 60 * 1000),
           lockReason := some reason }

/-- Source `User.recordFailedLogin()`: increments the counter and, once it reaches
5, locks the account for 30 minutes with reason `multiple_failed_attempts`. -/
def AuthUser.recordFailedLogin (u : AuthUser) (now : Time) : AuthUser :=
  let u2 := { u with failedLoginAttempts := u.failedLoginAttempts + 1 }
  if u2.failedLoginAttempts ≥ 5 then
    u2.lockAccount .multipleFailedAttempts 30 now
  else u2

/-- Source `User.activate()`. -/
def AuthUser.activate (u : AuthUser) : Except String AuthUser :=
  if canTransitionTo u .active then
    .ok (({ u with authStatus := .active }).resetFailedAttempts.unlock)
  else .error ("Cannot activate user from status: " ++ authStatusStr u.authStatus)

/-- Source `User.deactivate()`. -/
def AuthUser.deactivate (u : AuthUser) : Except String AuthUser :=
  if canTransitionTo u .inactive then
    .ok { u with authStatus := .inactive, isActive := false }
  else .error ("Cannot deactivate user from status: " ++ authStatusStr u.authStatus)

/-- Source `User.suspend(reason?)`. -/
def AuthUser.suspend (u : AuthUser) (reason : Option AccountLockReason) :
    Except String AuthUser :=
  if canTransitionTo u .suspended then
    .ok { u with authStatus := .suspended, lockReason := reason }
  else .error ("Cannot suspend user from status: " ++ authStatusStr u.authStatus)

/-- Source `User.block(reason?)`. -/
def AuthUser.block (u : AuthUser) (reason : Option AccountLockReason) :
    Except String AuthUser :=
  if canTransitionTo u .blocked then
    .ok { u with authStatus := .blocked, isActive := false, lockReason := reason }
  else .error ("Cannot block user from status: " ++ authStatusStr u.authStatus)

/-- Source `User.verifyEmail()` of the auth module: marks the email verified, clears
the token and its expiry, and promotes a pending account to active. -/
def AuthUser.verifyEmail (u : AuthUser) : AuthUser :=
  let u2 := { u with emailVerified := true, verificationToken := none,
                     verificationTokenExpiresAt := none }
  if u2.authStatus = .pending then { u2 with authStatus := .active } else u2

/-- The four status-transition operations of the entity, as one sum type so
the state machine can be quantified over. -/
inductive TransitionOp where
  | activateOp
  | deactivateOp
  | suspendOp (reason : Option AccountLockReason)
  | blockOp (reason : Option AccountLockReason)
deriving Repr, DecidableEq

/-- The target status each operation attempts. -/
def TransitionOp.target : TransitionOp → AuthStatus
  | .activateOp => .active
  | .deactivateOp => .inactive
  | .suspendOp _ => .suspended
  | .blockOp _ => .blocked

/-- Dispatch a transition operation to the entity method it names. -/
def applyTransition : TransitionOp → AuthUser → Except String AuthUser
  | .activateOp, u => u.activate
  | .deactivateOp, u => u.deactivate
  | .suspendOp r, u => u.suspend r
  | .blockOp r, u => u.block r

/-- The error message each failing transition produces, naming the verb and
the attempted source status. -/
def transitionErrorMsg (op : TransitionOp) (src : AuthStatus) : String :=
  match op with
  | .activateOp => "Cannot activate user from status: " ++ authStatusStr src
  | .deactivateOp => "Cannot deactivate user from status: " ++ authStatusStr src
  | .suspendOp _ => "Cannot suspend user from status: " ++ authStatusStr src
  | .blockOp _ => "Cannot block user from status: " ++ authStatusStr src

/-- The transition table exactly as the specification words it, written down
independently of the code's `AUTH_STATUS_TRANSITIONS` so the two can be
compared: pending to active or blocked; active to inactive, suspended or
blocked; inactive to active or blocked; suspended to active or blocked;
blocked terminal. -/
def specAllowedTransition : AuthStatus → AuthStatus → Bool
  | .pending, .active => true
  | .pending, .blocked => true
  | .active, .inactive => true
  | .active, .suspended => true
  | .active, .blocked => true
  | .inactive, .active => true
  | .inactive, .blocked => true
  | .suspended, .active => true
  | .suspended, .blocked => true
  | _, _ => false


/-! ### Concrete fixtures used by closed theorems and witnesses -/

/-- A stored user with known keys and password, used as a concrete fixture. -/
def uAlice : StoredUser :=
  { id := "u1"
    email := "alice@example.com"
    password := bcryptHash "pw1"
    secretKey := "ka1"
    refreshSecretKey := "kr1"
    firstName := some "Alice"
    lastName := none
    isActive := true
    emailVerified := true
    verificationToken := none
    verificationTokenExpiresAt := none
    renewalVerificationToken := none
    renewalVerificationTokenExpiresAt := none
    createdAt := 0
    updatedAt := 0 }

/-- A one-user store. -/
def store1 : Store := [uAlice]

/-- An access token issued for `uAlice` under her current access key. -/
def at1 : Jwt :=
  { sub := some "u1", exp := some 1000000, iat := some 0, key := "ka1", isRefresh := false }

/-- A refresh token issued for `uAlice` under her current refresh key. -/
def rt1 : Jwt :=
  { sub := some "u1", exp := some 1000000, iat := some 0, key := "kr1", isRefresh := true }

/-- The store after any of the key-"rotating" operations runs on `store1` at
time 5: only `updatedAt` moves, because `update` drops the key fields. -/
def store1Bumped : Store := [{ uAlice with updatedAt := 5 }]

/-- An auth-module user in the `pending` status. -/
def pendingUser : AuthUser :=
  { id := "a1", email := "p@example.com", password := none, secretKey := "s1"
    refreshSecretKey := "r1", isActive := true, emailVerified := false
    authStatus := .pending, failedLoginAttempts := 0, lockedUntil := none
    lockReason := none, verificationToken := none, verificationTokenExpiresAt := none }

/-- An auth-module user in the terminal `blocked` status. -/
def blockedUser : AuthUser :=
  { pendingUser with id := "a2", authStatus := .blocked }

/-- The store reached after five consecutive failed login attempts for
`uAlice`: the source's `login` path performs no repository write, so nothing
accumulates. -/
def afterFiveFailedLogins : Store :=
  (List.range 5).foldl (fun st _ => (loginSt st "alice@example.com" "wrongpw" 5).2) store1

/-- An active auth-module user one failure away from the lockout threshold. -/
def almostLocked : AuthUser :=
  { pendingUser with authStatus := AuthStatus.active, failedLoginAttempts := 4 }

/-- The row created by registering Bob through `RegistrationService.register`
(generated id `u2`, verification token `tok123`, 24-hour expiry from time 0):
active from the start, email unverified. -/
def uBobRow : StoredUser :=
  { id := "u2"
    email := "bob@example.com"
    password := bcryptHash "pw2"
    secretKey := "kb1"
    refreshSecretKey := "kb2"
    firstName := none
    lastName := none
    isActive := true
    emailVerified := false
    verificationToken := some "tok123"
    verificationTokenExpiresAt := some 86400
    renewalVerificationToken := none
    renewalVerificationTokenExpiresAt := none
    createdAt := 0
    updatedAt := 0 }

/-- The store holding only the freshly registered Bob. -/
def bobStore : Store := [uBobRow]

/-- Bob's row after email verification at time 50: verified, token cleared,
but the expiry column untouched. -/
def uBobVerifiedRow : StoredUser :=
  { uBobRow with emailVerified := true, verificationToken := none, updatedAt := 50 }

/-! ### Helper lemmas -/

/-- Updating rows by id commutes with lookup by id, provided the row function
preserves ids. -/
theorem findById_updateStore (s : Store) (uid uid2 : String) (f : StoredUser → StoredUser)
    (hf : ∀ u, (f u).id = u.id) :
    findById (updateStore s uid f) uid2 =
      (findById s uid2).map (fun u => if u.id == uid then f u else u) := by
  have hp : ((fun u : StoredUser => u.id == uid2) ∘ fun u => if u.id == uid then f u else u)
      = fun u : StoredUser => u.id == uid2 := by
    funext u
    by_cases h : (u.id == uid) = true <;> simp [Function.comp, h, hf]
  show List.find? _ (s.map _) = _
  rw [List.find?_map, hp]
  rfl

/-- A row found by id carries that id. -/
theorem findById_some_id (s : Store) (uid : String) (su : StoredUser)
    (h : findById s uid = some su) : su.id = uid := by
  have := List.find?_some h
  simpa using this

/-- A row found by id is a member of the store. -/
theorem findById_mem (s : Store) (uid : String) (su : StoredUser)
    (h : findById s uid = some su) : su ∈ s :=
  List.mem_of_find?_eq_some h

/-- The `applyUpdates` row function never changes the id. -/
theorem applyUpdates_id (now : Time) (upd : UserUpdates) (u : StoredUser) :
    (applyUpdates now upd u).id = u.id := rfl

/-- Lookup by id through `repoUpdate`. -/
theorem findById_repoUpdate (s : Store) (uid uid2 : String) (upd : UserUpdates)
    (now : Time) :
    findById (repoUpdate s uid upd now) uid2 =
      (findById s uid2).map (fun u => if u.id == uid then applyUpdates now upd u else u) :=
  findById_updateStore s uid uid2 (applyUpdates now upd) (applyUpdates_id now upd)

/-! ### Claim theorems -/

/-- C2: `RegistrationRepository.update` leaves the stored `secretKey`,
`refreshSecretKey`, `renewalVerificationToken` and
`renewalVerificationTokenExpiresAt` unchanged regardless of the updates
argument (it persists only the eight guarded fields, besides bumping
`updatedAt`); consequently regenerating both keys on an in-memory entity and
saving it through `update` leaves the durable keys read back by `findById`
unchanged. -/
theorem update_frame_effect :
    (∀ (now : Time) (upd : UserUpdates) (u : StoredUser),
      (applyUpdates now upd u).secretKey = u.secretKey ∧
      (applyUpdates now upd u).refreshSecretKey = u.refreshSecretKey ∧
      (applyUpdates now upd u).renewalVerificationToken = u.renewalVerificationToken ∧
      (applyUpdates now upd u).renewalVerificationTokenExpiresAt =
        u.renewalVerificationTokenExpiresAt ∧
      (applyUpdates now upd u).id = u.id ∧
      (applyUpdates now upd u).createdAt = u.createdAt ∧
      (applyUpdates now upd u).updatedAt = now) ∧
    (∀ (s : Store) (uid a b : String) (t now : Time) (su : StoredUser),
      findById s uid = some su →
      ∀ v, findById (repoUpdate s uid
          (entityToUpdates
            (((toUserEntity su).regenerateSecretKey a t).regenerateRefreshSecretKey b t))
          now) uid = some v →
        v.secretKey = su.secretKey ∧ v.refreshSecretKey = su.refreshSecretKey) := by
  constructor
  · intro now upd u
    refine ⟨rfl, rfl, rfl, rfl, rfl, rfl, rfl⟩
  · intro s uid a b t now su h v hv
    rw [findById_repoUpdate, h, Option.map_some'] at hv
    have hbeq : (su.id == uid) = true := by
      simp [findById_some_id s uid su h]
    rw [if_pos hbeq] at hv
    cases hv
    exact ⟨rfl, rfl⟩

/-- Closed witness for C2 at a concrete store: the rotation round-trip leaves
the durable keys of `uAlice` unchanged. -/
theorem update_frame_effect_witness :
    findById store1 "u1" = some uAlice ∧
    ((applyUpdates 7 { secretKey := some "zz" } uAlice).secretKey = uAlice.secretKey ∧
      ∀ v, findById (repoUpdate store1 "u1"
          (entityToUpdates
            (((toUserEntity uAlice).regenerateSecretKey "x" 3).regenerateRefreshSecretKey "y" 3))
          3) "u1" = some v →
        v.secretKey = uAlice.secretKey ∧ v.refreshSecretKey = uAlice.refreshSecretKey) := by
  refine ⟨by decide, (update_frame_effect.1 7 { secretKey := some "zz" } uAlice).1,
    update_frame_effect.2 store1 "u1" "x" "y" 3 3 uAlice (by decide)⟩

/-- C9: each of `activate`, `deactivate`, `suspend`, `block` succeeds exactly
when the (source, target) pair is allowed by the table pending to active or
blocked; active to inactive, suspended or blocked; inactive to active or
blocked; suspended to active or blocked; blocked terminal — and on success
the status becomes the target, while a disallowed transition fails with an
error message naming the attempted source status (the entity throws before
mutating, so the user is unchanged on failure, which the `Except` embedding
makes explicit by returning no updated entity). -/
theorem status_transitions_follow_table :
    ∀ (op : TransitionOp) (u : AuthUser),
      ((applyTransition op u).isOk = true ↔
        specAllowedTransition u.authStatus op.target = true) ∧
      (∀ u2, applyTransition op u = .ok u2 → u2.authStatus = op.target) ∧
      (∀ msg, applyTransition op u = .error msg →
        msg = transitionErrorMsg op u.authStatus) ∧
      AUTH_STATUS_TRANSITIONS .blocked = [] := by
  intro op u
  cases op <;> cases hst : u.authStatus <;>
    simp [applyTransition, AuthUser.activate, AuthUser.deactivate, AuthUser.suspend,
      AuthUser.block, AuthUser.resetFailedAttempts, AuthUser.unlock, canTransitionTo,
      AUTH_STATUS_TRANSITIONS, specAllowedTransition, TransitionOp.target,
      transitionErrorMsg, hst, Except.isOk, Except.toBool]

/-- Closed witness for C9: a pending user activates to active, and a blocked
user cannot be activated, with the error naming the blocked source. -/
theorem status_transitions_witness :
    (∀ u2, applyTransition .activateOp pendingUser = .ok u2 → u2.authStatus = .active) ∧
    (∀ msg, applyTransition .activateOp blockedUser = .error msg →
      msg = "Cannot activate user from status: blocked") :=
  ⟨(status_transitions_follow_table .activateOp pendingUser).2.1,
    (status_transitions_follow_table .activateOp blockedUser).2.2.1⟩

/-- C6: a login with an email that resolves to no user and a login with an
existing email but a wrong password produce the identical
`UnauthorizedException('Invalid credentials')` — same error kind and same
message — so a caller cannot tell a non-existent account from a wrong
password. -/
theorem login_enumeration_resistance :
    ∀ (s : Store) (e1 p1 e2 p2 : String) (su : StoredUser) (now1 now2 : Time),
      findByEmail s e1 = none →
      findByEmail s e2 = some su →
      bcryptCompare p2 su.password = false →
      login s e1 p1 now1 = .error (.unauthorized "Invalid credentials") ∧
      login s e2 p2 now2 = .error (.unauthorized "Invalid credentials") := by
  intro s e1 p1 e2 p2 su now1 now2 h1 h2 hc
  constructor
  · simp [login, validateUser, h1]
  · simp [login, validateUser, h2, toUserEntity, hc]

/-- Closed witness for C6 on the concrete one-user store. -/
theorem login_enumeration_resistance_witness :
    findByEmail store1 "nobody@example.com" = none ∧
    findByEmail store1 "alice@example.com" = some uAlice ∧
    bcryptCompare "wrongpw" uAlice.password = false ∧
    (login store1 "nobody@example.com" "whatever" 0 =
        .error (.unauthorized "Invalid credentials") ∧
      login store1 "alice@example.com" "wrongpw" 0 =
        .error (.unauthorized "Invalid credentials")) :=
  ⟨by decide, by decide, by decide,
    login_enumeration_resistance store1 "nobody@example.com" "whatever"
      "alice@example.com" "wrongpw" uAlice 0 0 (by decide) (by decide) (by decide)⟩

/-- C8: `introspectToken` is total — every failure (undecodable token,
expired token, signature that does not verify, subject that resolves to no
user) yields a structured result with `active = false` and a human-readable
reason attached, and `active = true` holds exactly when the token decodes,
passes the expiry pre-check, verifies against the user's current key (which
also enforces expiry and requires the user to exist) — so no input makes the
operation throw. -/
theorem introspect_total_and_gated :
    ∀ (s : Store) (tok : Option Jwt) (now : Time),
      ((introspectToken s tok now).active = false →
        (introspectToken s tok now).error.isSome = true) ∧
      ((introspectToken s tok now).active = true ↔
        ∃ t, tok = some t ∧ jsExpCheck t now = false ∧
          (verifyAccessToken s t t.sub now).isOk = true ∧
          (t.sub.bind (findById s)).isSome = true) := by
  intro s tok now
  cases tok with
  | none => simp [introspectToken]
  | some t =>
    by_cases hx : jsExpCheck t now = true
    · simp [introspectToken, hx]
    · have hx2 : jsExpCheck t now = false := by
        cases hb : jsExpCheck t now
        · rfl
        · exact absurd hb hx
      cases hv : verifyAccessToken s t t.sub now with
      | error e =>
        simp [introspectToken, hx2, hv, Except.isOk, Except.toBool]
      | ok j =>
        cases hb : t.sub.bind (findById s) with
        | none => simp [introspectToken, hx2, hv, hb, Except.isOk, Except.toBool]
        | some su => simp [introspectToken, hx2, hv, hb, Except.isOk, Except.toBool]

/-- Closed witness for C8: an undecodable token yields an inactive result
carrying a reason, and a live token for `uAlice` introspects as active. -/
theorem introspect_total_and_gated_witness :
    (introspectToken store1 none 0).error.isSome = true ∧
    (introspectToken store1 (some at1) 0).active = true :=
  ⟨(introspect_total_and_gated store1 none 0).1 (by decide),
    ((introspect_total_and_gated store1 (some at1) 0).2).mpr
      ⟨at1, rfl, by decide, by decide, by decide⟩⟩

/-- C1: at a concrete store, `logout` succeeds for a valid refresh token, yet
both stored signing keys are unchanged (only `updatedAt` moves, because
`RegistrationRepository.update` drops the key fields the in-memory rotation
set), so the previously issued access and refresh tokens still verify against
the durable keys — contradicting the claim (and the source's own comment)
that logout invalidates every outstanding token. -/
theorem logout_leaves_old_tokens_valid :
    logout store1 (some rt1) "ka2" "kr2" 5 = .ok store1Bumped ∧
    verifyAccessToken store1Bumped at1 (some "u1") 5 = .ok at1 ∧
    verifyRefreshToken store1Bumped rt1 (some "u1") 5 = .ok rt1 := by
  decide

/-- C4: at a concrete store, `revokeRefreshToken` succeeds for a valid
refresh token, the stored keys are unchanged (the in-memory refresh-key
rotation is dropped by `update`), and the very refresh token that was just
revoked still verifies — contradicting the claim that previously issued
refresh tokens fail verification after revoke. -/
theorem revoke_leaves_old_refresh_tokens_valid :
    revokeRefreshToken store1 (some rt1) "kr2" 5 = .ok store1Bumped ∧
    verifyRefreshToken store1Bumped rt1 (some "u1") 5 = .ok rt1 := by
  decide

/-- C3 counterexample: at a concrete store, `adminRevokeUserTokens` succeeds
but the stored access key and refresh key are both exactly what they were
(`ka1`, `kr1`), and the outstanding access token still verifies — refuting
the claim that the operation performs the same dual-key rotation as logout
and invalidates every outstanding token. -/
theorem admin_revoke_counterexample :
    adminRevokeUserTokens store1 "u1" "kr2" 5 = .ok store1Bumped ∧
    (findById store1Bumped "u1").map (fun u => (u.secretKey, u.refreshSecretKey)) =
      some ("ka1", "kr1") ∧
    verifyAccessToken store1Bumped at1 (some "u1") 5 = .ok at1 := by
  decide

/-- C3 amended: `adminRevokeUserTokens` regenerates only the refresh signing
key on the in-memory entity — the access signing key is untouched, unlike
logout — and because `update` does not persist signing keys, both durable
keys read back by `findById` are unchanged after the call succeeds. -/
theorem admin_revoke_rotates_only_refresh :
    ∀ (s : Store) (uid fr : String) (now : Time) (su : StoredUser),
      findById s uid = some su →
      ((toUserEntity su).regenerateRefreshSecretKey fr now).secretKey = su.secretKey ∧
      ((toUserEntity su).regenerateRefreshSecretKey fr now).refreshSecretKey = fr ∧
      ∃ s2, adminRevokeUserTokens s uid fr now = .ok s2 ∧
        ∀ v, findById s2 uid = some v →
          v.secretKey = su.secretKey ∧ v.refreshSecretKey = su.refreshSecretKey := by
  intro s uid fr now su h
  have hok : adminRevokeUserTokens s uid fr now =
      .ok (repoUpdate s su.id
        (entityToUpdates ((toUserEntity su).regenerateRefreshSecretKey fr now)) now) := by
    unfold adminRevokeUserTokens revokeAllRefreshTokens
    rw [h]
    rfl
  refine ⟨rfl, rfl, _, hok, ?_⟩
  intro v hv
  have hid : su.id = uid := findById_some_id s uid su h
  rw [findById_repoUpdate, hid, h, Option.map_some'] at hv
  rw [if_pos (by simp [hid] : (su.id == uid) = true)] at hv
  cases hv
  exact ⟨rfl, rfl⟩

/-- Closed witness for the amended C3 at the concrete store. -/
theorem admin_revoke_witness :
    findById store1 "u1" = some uAlice ∧
    (((toUserEntity uAlice).regenerateRefreshSecretKey "kr9" 5).secretKey =
        uAlice.secretKey ∧
      ((toUserEntity uAlice).regenerateRefreshSecretKey "kr9" 5).refreshSecretKey = "kr9" ∧
      ∃ s2, adminRevokeUserTokens store1 "u1" "kr9" 5 = .ok s2 ∧
        ∀ v, findById s2 "u1" = some v →
          v.secretKey = uAlice.secretKey ∧ v.refreshSecretKey = uAlice.refreshSecretKey) :=
  ⟨by decide, admin_revoke_rotates_only_refresh store1 "u1" "kr9" 5 uAlice (by decide)⟩

/-- C5 counterexample: five consecutive failed login attempts leave the
durable store exactly as it was (no counter is incremented — `AuthService`
never calls `recordFailedLogin`), each failed attempt reports only
`Invalid credentials`, and the sixth attempt with the correct password
succeeds instead of failing with a lockout-related error. -/
theorem lockout_counterexample :
    afterFiveFailedLogins = store1 ∧
    login store1 "alice@example.com" "wrongpw" 5 =
      .error (.unauthorized "Invalid credentials") ∧
    (login afterFiveFailedLogins "alice@example.com" "pw1" 5).isOk = true := by
  decide

/-- C5 amended: the auth-module entity method `recordFailedLogin` does
increment the counter and, once the count reaches 5, locks the account for 30
minutes with reason `multiple_failed_attempts`; but `AuthService.login` never
invokes it (nor any lockout check): a login attempt leaves the store
unchanged, and a later attempt with correct credentials on an active account
succeeds no matter how many failures preceded it. -/
theorem lockout_entity_only :
    (∀ (u : AuthUser) (now : Time),
      (u.recordFailedLogin now).failedLoginAttempts = u.failedLoginAttempts + 1 ∧
      (u.failedLoginAttempts + 1 ≥ 5 →
        (u.recordFailedLogin now).lockedUntil = some (now + 30 * 60 * 1000) ∧
        (u.recordFailedLogin now).lockReason = some .multipleFailedAttempts) ∧
      (u.failedLoginAttempts + 1 < 5 →
        (u.recordFailedLogin now).lockedUntil = u.lockedUntil ∧
        (u.recordFailedLogin now).lockReason = u.lockReason)) ∧
    (∀ (s : Store) (e p : String) (now : Time), (loginSt s e p now).2 = s) ∧
    (∀ (s : Store) (e p : String) (now : Time) (su : StoredUser),
      findByEmail s e = some su → bcryptCompare p su.password = true →
      su.isActive = true →
      login s e p now = .ok (generateTokens (toUserEntity su) now)) := by
  refine ⟨?_, fun s e p now => rfl, ?_⟩
  · intro u now
    by_cases h5 : u.failedLoginAttempts + 1 ≥ 5
    · refine ⟨?_, fun _ => ?_, fun hlt => absurd h5 (by omega)⟩ <;>
        simp [AuthUser.recordFailedLogin, AuthUser.lockAccount, h5]
    · refine ⟨?_, fun hge => absurd hge h5, fun _ => ?_⟩ <;>
        simp [AuthUser.recordFailedLogin, AuthUser.lockAccount, h5]
  · intro s e p now su hf hc hA
    simp [login, validateUser, hf, toUserEntity, hc, hA]

/-- Closed witness for the amended C5: a user on their 5th failure gets the
counter incremented to 5, and a login with the correct password on the
concrete store succeeds. -/
theorem lockout_witness :
    (almostLocked.recordFailedLogin 0).failedLoginAttempts =
      almostLocked.failedLoginAttempts + 1 ∧
    findByEmail store1 "alice@example.com" = some uAlice ∧
    bcryptCompare "pw1" uAlice.password = true ∧
    uAlice.isActive = true ∧
    login store1 "alice@example.com" "pw1" 9 =
      .ok (generateTokens (toUserEntity uAlice) 9) :=
  ⟨(lockout_entity_only.1 almostLocked 0).1,
    by decide, by decide, by decide,
    lockout_entity_only.2.2 store1 "alice@example.com" "pw1" 9 uAlice
      (by decide) (by decide) (by decide)⟩

/-- C7: the renewal confirmation can never succeed, because
`RegistrationRepository` neither persists the renewal fields (`update` drops
them) nor reads them back (`toUserEntity` omits them), so the loaded entity
always lacks a pending code and `confirmRenewSignatures` always fails — in
particular none of the claimed success effects (new password stored, both
keys rotated, code cleared, lockout counter reset) ever happen; the concrete
conjunct runs the full request-then-confirm pipeline with the correct code
and still receives `No renewal verification code requested`. -/
theorem confirm_renew_never_succeeds :
    (∀ (s : Store) (email code npw ka kr : String) (now : Time),
      (confirmRenewSignatures s email code npw ka kr now).isOk = false) ∧
    confirmRenewSignatures
        (requestRenewSignatures store1 "alice@example.com" "123456" 10)
        "alice@example.com" "123456" "NewPassword1" "ka2" "kr2" 20 =
      .error (.unauthorized "No renewal verification code requested") := by
  constructor
  · intro s email code npw ka kr now
    unfold confirmRenewSignatures
    cases h : findByEmail s email with
    | none => rfl
    | some su =>
      by_cases hA : su.isActive = true <;>
        simp [toUserEntity, hA, Except.isOk, Except.toBool]
  · decide

/-- C10 counterexample: registering Bob and verifying his email with the
correct, unexpired token succeeds and clears the verification token, but the
stored `verificationTokenExpiresAt` is still `some 86400` — the expiry is not
cleared, refuting the claimed "clears the verification token and its
expiry". -/
theorem verify_email_counterexample :
    registerUser [] "u2" "bob@example.com" "pw2" none none "kb1" "kb2" "tok123" 0 =
      .ok bobStore ∧
    verifyEmailFlow bobStore "tok123" 50 = .ok [uBobVerifiedRow] ∧
    uBobVerifiedRow.verificationTokenExpiresAt = some 86400 := by
  decide

/-- Lookup by id through `updateVerificationStatus`. -/
theorem findById_updateVerificationStatus (s : Store) (uid uid2 : String) (ev : Bool)
    (vtok : Option (Option String)) (vexp : Option Time) (now : Time) :
    findById (updateVerificationStatus s uid ev vtok vexp now) uid2 =
      (findById s uid2).map (fun u => if u.id == uid then
        { u with
          emailVerified := ev
          updatedAt := now
          verificationToken := match vtok with | some v => v | none => u.verificationToken
          verificationTokenExpiresAt :=
            match vexp with | some v => some v | none => u.verificationTokenExpiresAt }
        else u) :=
  findById_updateStore s uid uid2 _ (fun _ => rfl)

/-- C10 amended: for a user holding the correct, unexpired verification token
(and with token and id unique in the store), email verification succeeds,
marks the email verified and clears the verification token — making it
single-use: replaying the same token fails with `Invalid verification
token` — but the token's stored expiry timestamp is left in place and the
`isActive` flag is unchanged (the registration service creates users already
active; this flow has no separate pending-to-active status transition). -/
theorem verify_email_amended :
    ∀ (s : Store) (tok : String) (now : Time) (su : StoredUser),
      findByVerificationToken s tok = some su →
      (∀ e, su.verificationTokenExpiresAt = some e → ¬ e < now) →
      su.emailVerified = false →
      (∀ v ∈ s, v.verificationToken = some tok → v.id = su.id) →
      (∀ v ∈ s, v.id = su.id → v = su) →
      ∃ s2, verifyEmailFlow s tok now = .ok s2 ∧
        (∀ v, findById s2 su.id = some v →
          v.emailVerified = true ∧ v.verificationToken = none ∧
          v.verificationTokenExpiresAt = su.verificationTokenExpiresAt ∧
          v.isActive = su.isActive) ∧
        verifyEmailFlow s2 tok now = .error (.notFound "Invalid verification token") := by
  intro s tok now su hfind hexp hver huniq hpk
  have hok : verifyEmailFlow s tok now =
      .ok (updateVerificationStatus s su.id true (some none) none now) := by
    unfold verifyEmailFlow
    rw [hfind]
    cases he : su.verificationTokenExpiresAt with
    | none => simp [toUserEntity, he, hver]
    | some e =>
      have hne : ¬ e < now := hexp e he
      simp [toUserEntity, he, hver, hne]
  refine ⟨_, hok, ?_, ?_⟩
  · intro v hv
    rw [findById_updateVerificationStatus] at hv
    cases hw : findById s su.id with
    | none => rw [hw] at hv; simp at hv
    | some w =>
      rw [hw, Option.map_some'] at hv
      have hwid : w.id = su.id := findById_some_id s su.id w hw
      have hwsu : w = su := hpk w (findById_mem s su.id w hw) hwid
      rw [if_pos (by simp [hwid] : (w.id == su.id) = true)] at hv
      cases hv
      rw [hwsu]
      exact ⟨rfl, rfl, rfl, rfl⟩
  · have hgone : findByVerificationToken
        (updateVerificationStatus s su.id true (some none) none now) tok = none := by
      unfold updateVerificationStatus updateStore findByVerificationToken
      refine List.find?_eq_none.mpr ?_
      intro x hx
      rcases List.mem_map.mp hx with ⟨w, hw, rfl⟩
      by_cases hid : (w.id == su.id) = true
      · simp [hid]
      · rw [if_neg (by simpa using hid)]
        intro hcontra
        have hwt : w.verificationToken = some tok := by simpa using hcontra
        exact hid (by simp [huniq w hw hwt])
    unfold verifyEmailFlow
    rw [hgone]

/-- Closed witness for the amended C10 on Bob's store. -/
theorem verify_email_witness :
    findByVerificationToken bobStore "tok123" = some uBobRow ∧
    uBobRow.emailVerified = false ∧
    (∃ s2, verifyEmailFlow bobStore "tok123" 50 = .ok s2 ∧
      (∀ v, findById s2 uBobRow.id = some v →
        v.emailVerified = true ∧ v.verificationToken = none ∧
        v.verificationTokenExpiresAt = uBobRow.verificationTokenExpiresAt ∧
        v.isActive = uBobRow.isActive) ∧
      verifyEmailFlow s2 "tok123" 50 = .error (.notFound "Invalid verification token")) :=
  ⟨by decide, by decide,
    verify_email_amended bobStore "tok123" 50 uBobRow (by decide)
      (by
        intro e he
        have h86 : some (86400 : Time) = some e := he
        injection h86 with h86e
        subst h86e
        decide)
      (by decide) (by decide) (by decide)⟩


end Flucastr
